import Mathlib

/-!
A shallow embedding of the `timetracker` Django application
(`timetracker/entries/views.py` and the shown migrations), together with
theorems checking the specification's claims about it.

Conventions of the embedding:
* Users are identified by `Nat`; the requesting user of an HTTP request is
  an `Option Nat` (`none` = unauthenticated / anonymous).
* The database is a record of lists of rows plus the next primary key of
  each table.  Django's per-table auto-increment primary keys are the
  `next*Id` counters.
* Each view function / class-based view becomes a Lean function from a
  database and a request to an `HttpResponse` paired with the resulting
  database.  Django framework behaviour that the views rely on
  (`login_required` redirecting anonymous users to the login URL,
  `CreateView`/`UpdateView` form handling, `get_object_or_404`) is inlined
  at the call sites, following the framework's documented semantics.
* The models and forms modules of the repository are not among the shown
  sources; their content is modelled from the spec where noted.
-/

/-- A row of the Client table: a name and a nullable author foreign key
(the owning user), as established by migration 0005. -/
structure Client where
  id : Nat
  name : String
  author : Option Nat
deriving DecidableEq, Repr

/-- A row of the Project table: a name, a foreign key to a Client, and a
nullable author foreign key (migration 0005). -/
structure Project where
  id : Nat
  name : String
  client : Nat
  author : Option Nat
deriving DecidableEq, Repr

/-- A row of the Entry table: start/stop timestamps (kept abstract as
strings), a foreign key to a Project, a description, and a nullable author
foreign key (migration 0004). -/
structure Entry where
  id : Nat
  start : String
  stop : String
  project : Nat
  description : String
  author : Option Nat
deriving DecidableEq, Repr

/-- The relational store: one list of rows per table plus the next
auto-increment primary key of each table. -/
structure Db where
  clients : List Client
  projects : List Project
  entries : List Entry
  nextClientId : Nat
  nextProjectId : Nat
  nextEntryId : Nat
deriving DecidableEq, Repr

/-- Modelled from the spec: `ClientForm`'s declared field (`forms.py` is not
among the shown sources) — "Client: name". -/
structure ClientFormData where
  name : String
deriving DecidableEq, Repr

/-- Modelled from the spec: `ProjectForm`'s declared fields — "Project:
name, client" (the client is submitted as a primary key). -/
structure ProjectFormData where
  name : String
  client : Nat
deriving DecidableEq, Repr

/-- Modelled from the spec: `EntryForm`'s declared fields — "Entry: start,
stop, project, description". -/
structure EntryFormData where
  start : String
  stop : String
  project : Nat
  description : String
deriving DecidableEq, Repr

/-- Modelled from the spec: `ClientForm.is_valid` — the form "validates and
binds user input to model fields"; a required character field is valid iff
non-empty. -/
def clientFormIsValid (f : ClientFormData) : Bool :=
  f.name != ""

/-- Modelled from the spec: `ProjectForm.is_valid` — the name is required
and the submitted client key must resolve to an existing Client row. -/
def projectFormIsValid (db : Db) (f : ProjectFormData) : Bool :=
  f.name != "" && db.clients.any (fun c => c.id == f.client)

/-- Modelled from the spec: `EntryForm.is_valid` — start/stop are required
and the submitted project key must resolve to an existing Project row. -/
def entryFormIsValid (db : Db) (f : EntryFormData) : Bool :=
  f.start != "" && f.stop != "" && db.projects.any (fun p => p.id == f.project)

/-- A request to a client view: a GET, or a POST carrying form data
(mirroring the views' `if request.method == 'POST'` branching). -/
inductive ClientReq where
  | get
  | post (form : ClientFormData)
deriving DecidableEq, Repr

/-- A request to a project view. -/
inductive ProjectReq where
  | get
  | post (form : ProjectFormData)
deriving DecidableEq, Repr

/-- A request to an entry view. -/
inductive EntryReq where
  | get
  | post (form : EntryFormData)
deriving DecidableEq, Repr

/-- The template context a view's `render` call supplies, one constructor
per template of the application, carrying the context keys the views set.
A form value of `none` is an unbound (or initial-data) form; `some f` with
`formErrors = true` is a bound form re-rendered with field errors. -/
inductive TemplateCtx where
  | clientsCtx (client_list : List Client) (form : Option ClientFormData) (formErrors : Bool)
  | clientDetailCtx (client : Client) (form : Option ClientFormData) (formErrors : Bool)
  | entriesCtx (entry_list : List Entry) (entry_form : Option EntryFormData) (formErrors : Bool)
  | projectsCtx (project_list : List Project) (form : Option ProjectFormData) (formErrors : Bool)
  | projectDetailCtx (project : Project) (form : Option ProjectFormData) (formErrors : Bool)
deriving DecidableEq, Repr

/-- The HTTP responses the views produce: a redirect, a rendered template,
`get_object_or_404`'s not-found, or an uncaught exception surfacing as a
server error. -/
inductive HttpResponse where
  | redirect (url : String)
  | render (template : String) (ctx : TemplateCtx)
  | notFound
  | serverError
deriving DecidableEq, Repr

/-- The URL `login_required` redirects unauthenticated requests to
(Django's `settings.LOGIN_URL` default). -/
def loginUrl : String := "/accounts/login/"

/-- Row update used by the client update views: set the name of the row
with the given primary key (`client.save()` after `client.name = ...`). -/
def updateClientName (db : Db) (pk : Nat) (n : String) : Db :=
  { db with clients := db.clients.map (fun c => if c.id = pk then { c with name := n } else c) }

/-- Row update used by the project update views: set the name and client of
the row with the given primary key. -/
def updateProject (db : Db) (pk : Nat) (n : String) (cl : Nat) : Db :=
  { db with projects := db.projects.map (fun p => if p.id = pk then { p with name := n, client := cl } else p) }

/-- The deprecated function-based view `clients` (views.py:17–49): on a
valid POST, `form.save()` inserts a Client from the form data (the author
field is never set, so it is stored NULL) and redirects to `client-list`;
otherwise the `clients.html` template is rendered with the full client list
and the form. -/
def clients (db : Db) (req : ClientReq) : HttpResponse × Db :=
  match req with
  | .post f =>
    if clientFormIsValid f then
      (.redirect "client-list",
        { db with
            clients := db.clients ++ [{ id := db.nextClientId, name := f.name, author := none }],
            nextClientId := db.nextClientId + 1 })
    else
      (.render "clients.html" (.clientsCtx db.clients (some f) true), db)
  | .get => (.render "clients.html" (.clientsCtx db.clients none false), db)

/-- `ClientCreateView` (views.py:52–79).  Note it does NOT mix in
`LoginRequiredMixin`, so requests are dispatched without an authentication
check.  On a valid POST, `form_valid` sets `form.instance.author =
self.request.user` and saves; if the request is unauthenticated that
assignment puts `AnonymousUser` into a foreign key, which raises (modelled
as `serverError`, with no row stored).  `get_context_data` puts the
unfiltered `Client.objects.all()` into the context. -/
def ClientCreateView.handle (db : Db) (user : Option Nat) (req : ClientReq) : HttpResponse × Db :=
  match req with
  | .post f =>
    if clientFormIsValid f then
      match user with
      | some u =>
        (.redirect "client-list",
          { db with
              clients := db.clients ++ [{ id := db.nextClientId, name := f.name, author := some u }],
              nextClientId := db.nextClientId + 1 })
      | none => (.serverError, db)
    else
      (.render "clients.html" (.clientsCtx db.clients (some f) true), db)
  | .get => (.render "clients.html" (.clientsCtx db.clients none false), db)

/-- The deprecated function-based view `client_detail` (views.py:82–102):
resolve the Client by primary key over ALL rows (`get_object_or_404`), then
update the name on a valid POST, else render `client_detail.html`. -/
def client_detail (db : Db) (pk : Nat) (req : ClientReq) : HttpResponse × Db :=
  match db.clients.find? (fun c => c.id == pk) with
  | none => (.notFound, db)
  | some c =>
    match req with
    | .post f =>
      if clientFormIsValid f then
        (.redirect "client-list", updateClientName db pk f.name)
      else
        (.render "client_detail.html" (.clientDetailCtx c (some f) true), db)
    | .get => (.render "client_detail.html" (.clientDetailCtx c (some { name := c.name }) false), db)

/-- `ClientUpdateView.get_queryset` (views.py:114–117): the base queryset
filtered to rows whose author is the requesting user. -/
def ClientUpdateView.get_queryset (db : Db) (u : Nat) : List Client :=
  db.clients.filter (fun c => c.author == some u)

/-- `ClientUpdateView` (views.py:105–117): `LoginRequiredMixin` redirects
unauthenticated requests to the login URL before any handler logic; the
target row is resolved by primary key inside the author-filtered queryset
(a miss is not-found); a valid POST saves the form over the row and
redirects to `client-list`. -/
def ClientUpdateView.handle (db : Db) (user : Option Nat) (pk : Nat) (req : ClientReq) : HttpResponse × Db :=
  match user with
  | none => (.redirect loginUrl, db)
  | some u =>
    match (ClientUpdateView.get_queryset db u).find? (fun c => c.id == pk) with
    | none => (.notFound, db)
    | some c =>
      match req with
      | .post f =>
        if clientFormIsValid f then
          (.redirect "client-list", updateClientName db pk f.name)
        else
          (.render "client_detail.html" (.clientDetailCtx c (some f) true), db)
      | .get => (.render "client_detail.html" (.clientDetailCtx c (some { name := c.name }) false), db)

/-- The deprecated function-based view `entries` (views.py:120–144): on a
valid POST an `Entry` is built from the four form fields (author never set,
so stored NULL) and saved, then redirect to `entry-list`; otherwise render
`entries.html` with the full entry list. -/
def entries (db : Db) (req : EntryReq) : HttpResponse × Db :=
  match req with
  | .post f =>
    if entryFormIsValid db f then
      (.redirect "entry-list",
        { db with
            entries := db.entries ++ [{ id := db.nextEntryId, start := f.start, stop := f.stop,
                                        project := f.project, description := f.description, author := none }],
            nextEntryId := db.nextEntryId + 1 })
    else
      (.render "entries.html" (.entriesCtx db.entries (some f) true), db)
  | .get => (.render "entries.html" (.entriesCtx db.entries none false), db)

/-- `EntryCreateView.get_queryset` (views.py:165–168): entries filtered to
the requesting user's rows (defined but not consulted by `CreateView`'s
request handling). -/
def EntryCreateView.get_queryset (db : Db) (u : Nat) : List Entry :=
  db.entries.filter (fun e => e.author == some u)

/-- `EntryCreateView` (views.py:147–168): login required; `form_valid` sets
the author to the requesting user before saving; the context carries the
unfiltered `Entry.objects.all()`. -/
def EntryCreateView.handle (db : Db) (user : Option Nat) (req : EntryReq) : HttpResponse × Db :=
  match user with
  | none => (.redirect loginUrl, db)
  | some u =>
    match req with
    | .post f =>
      if entryFormIsValid db f then
        (.redirect "entry-list",
          { db with
              entries := db.entries ++ [{ id := db.nextEntryId, start := f.start, stop := f.stop,
                                          project := f.project, description := f.description, author := some u }],
              nextEntryId := db.nextEntryId + 1 })
      else
        (.render "entries.html" (.entriesCtx db.entries (some f) true), db)
    | .get => (.render "entries.html" (.entriesCtx db.entries none false), db)

/-- The deprecated function-based view `projects` (views.py:171–191): a
valid POST runs `Project.objects.create(name=..., client=...)` (author
never set, so stored NULL) and redirects to `project-list`; otherwise
render `projects.html` with the full project list. -/
def projects (db : Db) (req : ProjectReq) : HttpResponse × Db :=
  match req with
  | .post f =>
    if projectFormIsValid db f then
      (.redirect "project-list",
        { db with
            projects := db.projects ++ [{ id := db.nextProjectId, name := f.name, client := f.client, author := none }],
            nextProjectId := db.nextProjectId + 1 })
    else
      (.render "projects.html" (.projectsCtx db.projects (some f) true), db)
  | .get => (.render "projects.html" (.projectsCtx db.projects none false), db)

/-- `ProjectCreateView.get_queryset` (views.py:212–215): projects filtered
to the requesting user's rows. -/
def ProjectCreateView.get_queryset (db : Db) (u : Nat) : List Project :=
  db.projects.filter (fun p => p.author == some u)

/-- `ProjectCreateView` (views.py:194–215): login required; `form_valid`
sets the author to the requesting user; the context carries the unfiltered
`Project.objects.all()`. -/
def ProjectCreateView.handle (db : Db) (user : Option Nat) (req : ProjectReq) : HttpResponse × Db :=
  match user with
  | none => (.redirect loginUrl, db)
  | some u =>
    match req with
    | .post f =>
      if projectFormIsValid db f then
        (.redirect "project-list",
          { db with
              projects := db.projects ++ [{ id := db.nextProjectId, name := f.name, client := f.client, author := some u }],
              nextProjectId := db.nextProjectId + 1 })
      else
        (.render "projects.html" (.projectsCtx db.projects (some f) true), db)
    | .get => (.render "projects.html" (.projectsCtx db.projects none false), db)

/-- The deprecated function-based view `project_detail` (views.py:218–243):
resolve the Project by primary key over ALL rows; a valid POST updates the
name and client and redirects to `project-list`; otherwise render
`project_detail.html`. -/
def project_detail (db : Db) (pk : Nat) (req : ProjectReq) : HttpResponse × Db :=
  match db.projects.find? (fun p => p.id == pk) with
  | none => (.notFound, db)
  | some p =>
    match req with
    | .post f =>
      if projectFormIsValid db f then
        (.redirect "project-list", updateProject db pk f.name f.client)
      else
        (.render "project_detail.html" (.projectDetailCtx p (some f) true), db)
    | .get =>
      (.render "project_detail.html" (.projectDetailCtx p (some { name := p.name, client := p.client }) false), db)

/-- `ProjectUpdateView.get_queryset` (views.py:255–258): the base queryset
filtered to rows whose author is the requesting user. -/
def ProjectUpdateView.get_queryset (db : Db) (u : Nat) : List Project :=
  db.projects.filter (fun p => p.author == some u)

/-- `ProjectUpdateView` (views.py:246–258): login required; the target row
is resolved by primary key inside the author-filtered queryset; a valid
POST saves the form (name and client) over the row. -/
def ProjectUpdateView.handle (db : Db) (user : Option Nat) (pk : Nat) (req : ProjectReq) : HttpResponse × Db :=
  match user with
  | none => (.redirect loginUrl, db)
  | some u =>
    match (ProjectUpdateView.get_queryset db u).find? (fun p => p.id == pk) with
    | none => (.notFound, db)
    | some p =>
      match req with
      | .post f =>
        if projectFormIsValid db f then
          (.redirect "project-list", updateProject db pk f.name f.client)
        else
          (.render "project_detail.html" (.projectDetailCtx p (some f) true), db)
      | .get =>
        (.render "project_detail.html" (.projectDetailCtx p (some { name := p.name, client := p.client }) false), db)

/-- `ClientRedirectView` (views.py:261–264): login required, then a
non-permanent redirect to `client-list`. -/
def ClientRedirectView.handle (user : Option Nat) : HttpResponse :=
  match user with
  | none => .redirect loginUrl
  | some _ => .redirect "client-list"

/-- A session, as a list of key/value pairs. -/
abbrev Session := List (String × String)

/-- `django.contrib.auth.logout` (framework): flushes the session so it
holds no data afterwards. -/
def auth_logout (_s : Session) : Session := []

/-- The `logout` view (views.py:266–268): invalidate the session via
`auth_logout`, then redirect to the root path. -/
def logout (s : Session) : HttpResponse × Session :=
  let s2 := auth_logout s
  (.redirect "/", s2)

/-! ## Migrations -/

/-- A schema-migration operation.  The two shown migration files use only
`AddField`; the other constructors cover the destructive / data-moving
operations the spec says are absent. -/
inductive MigrationOp where
  | addField (model fieldName : String) (nullable : Bool) (fkTarget : Option String)
  | removeField (model fieldName : String)
  | alterField (model fieldName : String)
  | runPython (codeName : String)
deriving DecidableEq, Repr

/-- An operation is additive iff it only adds a column. -/
def MigrationOp.isAdditive : MigrationOp → Bool
  | .addField _ _ _ _ => true
  | _ => false

/-- A migration dependency: another migration of an app, or the swappable
configured User model (`settings.AUTH_USER_MODEL`). -/
inductive MigrationDep where
  | app (appName migrationName : String)
  | swappableUser
deriving DecidableEq, Repr

/-- A migration: its dependencies and its ordered operations. -/
structure Migration where
  dependencies : List MigrationDep
  operations : List MigrationOp
deriving DecidableEq, Repr

/-- The configured User model, as the foreign-key target string. -/
def userModel : String := "settings.AUTH_USER_MODEL"

/-- `entries/migrations/0004_entry_author.py`. -/
def migration0004 : Migration :=
  { dependencies := [.swappableUser, .app "entries" "0003_create_fk_to_client"],
    operations := [.addField "entry" "author" true (some userModel)] }

/-- `entries/migrations/0005_auto_20150909_0538.py`. -/
def migration0005 : Migration :=
  { dependencies := [.swappableUser, .app "entries" "0004_entry_author"],
    operations := [.addField "client" "author" true (some userModel),
                   .addField "project" "author" true (some userModel)] }

/-! ## Concrete databases used as test fixtures -/

/-- A database holding one client and one project, both authored by user 1. -/
def demoDb : Db :=
  { clients := [{ id := 1, name := "Initech", author := some 1 }],
    projects := [{ id := 1, name := "Website", client := 1, author := some 1 }],
    entries := [],
    nextClientId := 2, nextProjectId := 2, nextEntryId := 1 }

/-- A database holding one client authored by user 2 (a user other than the
requesting user 1 of several scenarios below). -/
def demoDb2 : Db :=
  { clients := [{ id := 1, name := "Other", author := some 2 }],
    projects := [],
    entries := [],
    nextClientId := 2, nextProjectId := 1, nextEntryId := 1 }

/-- A database holding one client and one project, both authored by user 2. -/
def demoDb3 : Db :=
  { clients := [{ id := 1, name := "Other", author := some 2 }],
    projects := [{ id := 1, name := "OtherProj", client := 1, author := some 2 }],
    entries := [],
    nextClientId := 2, nextProjectId := 2, nextEntryId := 1 }

/-! ## Claim theorems -/

/-- C1: the claim says every unauthenticated request to a create or update
route redirects to the login flow with no row touched.  The client-create
route does not: `ClientCreateView` is the one create/update view without
`LoginRequiredMixin`, so an unauthenticated GET renders the page and an
unauthenticated valid POST reaches `form_valid`, whose author assignment
raises instead of redirecting.  The sibling views do redirect to the login
URL and leave the database unchanged. -/
theorem c1_client_create_missing_login_check :
  (ClientCreateView.handle demoDb2 none .get).1
      = .render "clients.html" (.clientsCtx [{ id := 1, name := "Other", author := some 2 }] none false)
  ∧ ClientCreateView.handle demoDb2 none (.post { name := "Acme" }) = (.serverError, demoDb2)
  ∧ ClientUpdateView.handle demoDb2 none 1 .get = (.redirect loginUrl, demoDb2)
  ∧ EntryCreateView.handle demoDb2 none .get = (.redirect loginUrl, demoDb2)
  ∧ ProjectCreateView.handle demoDb2 none .get = (.redirect loginUrl, demoDb2)
  ∧ ProjectUpdateView.handle demoDb2 none 1 .get = (.redirect loginUrl, demoDb2)
:= ⟨rfl, rfl, rfl, rfl, rfl, rfl⟩

/-- C2 counterexample: the claim says every list queryset, including the
entity lists the create views put into their template context, contains
exactly the requesting user's rows.  But `ClientCreateView`'s context list
is the unfiltered table: for requesting user 1 it contains a row authored
by user 2. -/
theorem c2_counterexample_context_list_unfiltered :
  (ClientCreateView.handle demoDb2 (some 1) .get).1
      = .render "clients.html" (.clientsCtx [{ id := 1, name := "Other", author := some 2 }] none false)
  ∧ ¬ (∀ c ∈ [({ id := 1, name := "Other", author := some 2 } : Client)], c.author = some 1)
:= ⟨rfl, by decide⟩

/-- C2 amended: the update querysets (`ClientUpdateView`,
`ProjectUpdateView`) and the queryset overrides of `EntryCreateView` and
`ProjectCreateView` contain exactly the rows whose author is the
requesting user, but the entity lists the create views place in their
template context are the full unfiltered tables. -/
theorem c2_amended_ownership_querysets (db : Db) (u : Nat) :
  (∀ c : Client, c ∈ ClientUpdateView.get_queryset db u ↔ c ∈ db.clients ∧ c.author = some u)
  ∧ (∀ p : Project, p ∈ ProjectUpdateView.get_queryset db u ↔ p ∈ db.projects ∧ p.author = some u)
  ∧ (∀ e : Entry, e ∈ EntryCreateView.get_queryset db u ↔ e ∈ db.entries ∧ e.author = some u)
  ∧ (∀ p : Project, p ∈ ProjectCreateView.get_queryset db u ↔ p ∈ db.projects ∧ p.author = some u)
  ∧ (ClientCreateView.handle db (some u) .get).1 = .render "clients.html" (.clientsCtx db.clients none false)
  ∧ (EntryCreateView.handle db (some u) .get).1 = .render "entries.html" (.entriesCtx db.entries none false)
  ∧ (ProjectCreateView.handle db (some u) .get).1 = .render "projects.html" (.projectsCtx db.projects none false)
:= by
  refine ⟨fun c => ?_, fun p => ?_, fun e => ?_, fun p => ?_, rfl, rfl, rfl⟩ <;>
    simp [ClientUpdateView.get_queryset, ProjectUpdateView.get_queryset,
          EntryCreateView.get_queryset, ProjectCreateView.get_queryset, List.mem_filter]

/-- C5: POSTing a valid form with name "Acme" to the client-create route as
authenticated user u appends exactly one Client row with author u, after
which the client list includes "Acme", and the response redirects to the
client-list route. -/
theorem c5_acme_scenario (db : Db) (u : Nat) :
  (ClientCreateView.handle db (some u) (.post { name := "Acme" })).1 = .redirect "client-list"
  ∧ (ClientCreateView.handle db (some u) (.post { name := "Acme" })).2.clients
      = db.clients ++ [{ id := db.nextClientId, name := "Acme", author := some u }]
  ∧ "Acme" ∈ ((ClientCreateView.handle db (some u) (.post { name := "Acme" })).2.clients.map Client.name)
:= by
  refine ⟨rfl, rfl, ?_⟩
  simp [ClientCreateView.handle, clientFormIsValid]

/-- C8: every request to the logout view flushes the session to empty and
responds with a redirect to the root path. -/
theorem c8_logout_flushes_session_and_redirects_root (s : Session) :
  logout s = (.redirect "/", ([] : Session)) := rfl

/-- C9: migration 0004 only adds a nullable author foreign key (to the
configured User model) to Entry and depends on migration 0003 and on the
User model; migration 0005 only adds nullable author foreign keys to
Client and Project and depends on migration 0004 and on the User model;
every operation of both migrations is additive (no removal, alteration or
data backfill). -/
theorem c9_migrations_additive :
  migration0004.operations = [.addField "entry" "author" true (some userModel)]
  ∧ migration0004.dependencies = [.swappableUser, .app "entries" "0003_create_fk_to_client"]
  ∧ migration0005.operations = [.addField "client" "author" true (some userModel),
                                .addField "project" "author" true (some userModel)]
  ∧ migration0005.dependencies = [.swappableUser, .app "entries" "0004_entry_author"]
  ∧ (migration0004.operations ++ migration0005.operations).all MigrationOp.isAdditive = true
:= ⟨rfl, rfl, rfl, rfl, rfl⟩

/-- C3: a valid create-form submission through any of the three class-based
create views by authenticated user u stores exactly one new row whose
author is u. -/
theorem c3_create_views_set_author (db : Db) (u : Nat)
    (f : ClientFormData) (fe : EntryFormData) (fp : ProjectFormData)
    (hf : clientFormIsValid f = true)
    (hfe : entryFormIsValid db fe = true)
    (hfp : projectFormIsValid db fp = true) :
  (ClientCreateView.handle db (some u) (.post f)).2.clients
      = db.clients ++ [{ id := db.nextClientId, name := f.name, author := some u }]
  ∧ (EntryCreateView.handle db (some u) (.post fe)).2.entries
      = db.entries ++ [{ id := db.nextEntryId, start := fe.start, stop := fe.stop,
                         project := fe.project, description := fe.description, author := some u }]
  ∧ (ProjectCreateView.handle db (some u) (.post fp)).2.projects
      = db.projects ++ [{ id := db.nextProjectId, name := fp.name, client := fp.client, author := some u }]
:= by
  refine ⟨?_, ?_, ?_⟩ <;>
    simp [ClientCreateView.handle, EntryCreateView.handle, ProjectCreateView.handle, hf, hfe, hfp]

/-- Witness for C3 at a concrete database, user and forms. -/
theorem c3_create_views_set_author_witness :
  clientFormIsValid { name := "Acme" } = true
  ∧ entryFormIsValid demoDb { start := "09:00", stop := "10:00", project := 1, description := "work" } = true
  ∧ projectFormIsValid demoDb { name := "App", client := 1 } = true
  ∧ ((ClientCreateView.handle demoDb (some 1) (.post { name := "Acme" })).2.clients
        = demoDb.clients ++ [{ id := demoDb.nextClientId, name := "Acme", author := some 1 }]
     ∧ (EntryCreateView.handle demoDb (some 1) (.post { start := "09:00", stop := "10:00", project := 1, description := "work" })).2.entries
        = demoDb.entries ++ [{ id := demoDb.nextEntryId, start := "09:00", stop := "10:00",
                               project := 1, description := "work", author := some 1 }]
     ∧ (ProjectCreateView.handle demoDb (some 1) (.post { name := "App", client := 1 })).2.projects
        = demoDb.projects ++ [{ id := demoDb.nextProjectId, name := "App", client := 1, author := some 1 }])
:= ⟨by decide, by decide, by decide,
    c3_create_views_set_author demoDb 1
      { name := "Acme" }
      { start := "09:00", stop := "10:00", project := 1, description := "work" }
      { name := "App", client := 1 }
      (by decide) (by decide) (by decide)⟩

/-- C4: when every Client row and every Project row carrying the requested
primary key is authored by a user v different from the requesting user u
(in a real database the primary key identifies one row, here rows c and p),
any GET or POST by u to the corresponding update view yields a not-found
response and leaves the database unchanged. -/
theorem c4_update_foreign_row_not_found (db : Db) (u v pk : Nat)
    (c : Client) (p : Project) (reqc : ClientReq) (reqp : ProjectReq)
    (_hcmem : c ∈ db.clients) (_hcid : c.id = pk) (hcauth : c.author = some v)
    (hcpk : ∀ x ∈ db.clients, x.id = pk → x = c)
    (_hpmem : p ∈ db.projects) (_hpid : p.id = pk) (hpauth : p.author = some v)
    (hppk : ∀ x ∈ db.projects, x.id = pk → x = p)
    (hvu : v ≠ u) :
  ClientUpdateView.handle db (some u) pk reqc = (.notFound, db)
  ∧ ProjectUpdateView.handle db (some u) pk reqp = (.notFound, db)
:= by
  have hc : (ClientUpdateView.get_queryset db u).find? (fun x => x.id == pk) = none := by
    rw [List.find?_eq_none]
    intro x hx hxid
    simp [ClientUpdateView.get_queryset, List.mem_filter] at hx
    have hxc : x = c := hcpk x hx.1 (by simpa using hxid)
    rw [hxc, hcauth] at hx
    exact hvu (by simpa using hx.2)
  have hp : (ProjectUpdateView.get_queryset db u).find? (fun x => x.id == pk) = none := by
    rw [List.find?_eq_none]
    intro x hx hxid
    simp [ProjectUpdateView.get_queryset, List.mem_filter] at hx
    have hxp : x = p := hppk x hx.1 (by simpa using hxid)
    rw [hxp, hpauth] at hx
    exact hvu (by simpa using hx.2)
  constructor
  · cases reqc <;> simp [ClientUpdateView.handle, hc]
  · cases reqp <;> simp [ProjectUpdateView.handle, hp]

/-- Witness for C4: user 1 attempts to update the client and the project of
user 2 (database `demoDb3`) and gets not-found with no modification. -/
theorem c4_update_foreign_row_not_found_witness :
  (2 : Nat) ≠ 1
  ∧ (ClientUpdateView.handle demoDb3 (some 1) 1 .get = (.notFound, demoDb3)
     ∧ ProjectUpdateView.handle demoDb3 (some 1) 1 .get = (.notFound, demoDb3))
:= ⟨by decide,
    c4_update_foreign_row_not_found demoDb3 1 2 1
      { id := 1, name := "Other", author := some 2 }
      { id := 1, name := "OtherProj", client := 1, author := some 2 }
      .get .get
      (by decide) (by decide) (by decide) (by decide)
      (by decide) (by decide) (by decide) (by decide)
      (by decide)⟩

/-- C6: an invalid POST to any create or update view (function-based or
class-based, the update views resolving their target row) inserts or
modifies no row — the database comes back unchanged — and responds by
re-rendering the form template with the bound, error-carrying form; no
response is a server error. -/
theorem c6_invalid_post_rerenders_form (db : Db) (u pk : Nat)
    (c : Client) (p : Project)
    (f : ClientFormData) (fe : EntryFormData) (fp : ProjectFormData)
    (hf : clientFormIsValid f = false)
    (hfe : entryFormIsValid db fe = false)
    (hfp : projectFormIsValid db fp = false)
    (hcd : db.clients.find? (fun x => x.id == pk) = some c)
    (hcu : (ClientUpdateView.get_queryset db u).find? (fun x => x.id == pk) = some c)
    (hpd : db.projects.find? (fun x => x.id == pk) = some p)
    (hpu : (ProjectUpdateView.get_queryset db u).find? (fun x => x.id == pk) = some p) :
  clients db (.post f) = (.render "clients.html" (.clientsCtx db.clients (some f) true), db)
  ∧ ClientCreateView.handle db (some u) (.post f)
      = (.render "clients.html" (.clientsCtx db.clients (some f) true), db)
  ∧ client_detail db pk (.post f)
      = (.render "client_detail.html" (.clientDetailCtx c (some f) true), db)
  ∧ ClientUpdateView.handle db (some u) pk (.post f)
      = (.render "client_detail.html" (.clientDetailCtx c (some f) true), db)
  ∧ entries db (.post fe) = (.render "entries.html" (.entriesCtx db.entries (some fe) true), db)
  ∧ EntryCreateView.handle db (some u) (.post fe)
      = (.render "entries.html" (.entriesCtx db.entries (some fe) true), db)
  ∧ projects db (.post fp) = (.render "projects.html" (.projectsCtx db.projects (some fp) true), db)
  ∧ ProjectCreateView.handle db (some u) (.post fp)
      = (.render "projects.html" (.projectsCtx db.projects (some fp) true), db)
  ∧ project_detail db pk (.post fp)
      = (.render "project_detail.html" (.projectDetailCtx p (some fp) true), db)
  ∧ ProjectUpdateView.handle db (some u) pk (.post fp)
      = (.render "project_detail.html" (.projectDetailCtx p (some fp) true), db)
:= by
  refine ⟨?_, ?_, ?_, ?_, ?_, ?_, ?_, ?_, ?_, ?_⟩ <;>
    simp [clients, ClientCreateView.handle, client_detail, ClientUpdateView.handle,
          entries, EntryCreateView.handle, projects, ProjectCreateView.handle,
          project_detail, ProjectUpdateView.handle, hf, hfe, hfp, hcd, hcu, hpd, hpu]

/-- Witness for C6: empty-name forms submitted against `demoDb`, whose
client and project rows are authored by the requesting user 1. -/
theorem c6_invalid_post_rerenders_form_witness :
  clientFormIsValid { name := "" } = false
  ∧ entryFormIsValid demoDb { start := "", stop := "", project := 1, description := "" } = false
  ∧ projectFormIsValid demoDb { name := "", client := 1 } = false
  ∧ (clients demoDb (.post { name := "" })
       = (.render "clients.html" (.clientsCtx demoDb.clients (some { name := "" }) true), demoDb)
     ∧ ClientCreateView.handle demoDb (some 1) (.post { name := "" })
       = (.render "clients.html" (.clientsCtx demoDb.clients (some { name := "" }) true), demoDb)
     ∧ client_detail demoDb 1 (.post { name := "" })
       = (.render "client_detail.html"
            (.clientDetailCtx { id := 1, name := "Initech", author := some 1 } (some { name := "" }) true), demoDb)
     ∧ ClientUpdateView.handle demoDb (some 1) 1 (.post { name := "" })
       = (.render "client_detail.html"
            (.clientDetailCtx { id := 1, name := "Initech", author := some 1 } (some { name := "" }) true), demoDb)
     ∧ entries demoDb (.post { start := "", stop := "", project := 1, description := "" })
       = (.render "entries.html"
            (.entriesCtx demoDb.entries (some { start := "", stop := "", project := 1, description := "" }) true), demoDb)
     ∧ EntryCreateView.handle demoDb (some 1) (.post { start := "", stop := "", project := 1, description := "" })
       = (.render "entries.html"
            (.entriesCtx demoDb.entries (some { start := "", stop := "", project := 1, description := "" }) true), demoDb)
     ∧ projects demoDb (.post { name := "", client := 1 })
       = (.render "projects.html" (.projectsCtx demoDb.projects (some { name := "", client := 1 }) true), demoDb)
     ∧ ProjectCreateView.handle demoDb (some 1) (.post { name := "", client := 1 })
       = (.render "projects.html" (.projectsCtx demoDb.projects (some { name := "", client := 1 }) true), demoDb)
     ∧ project_detail demoDb 1 (.post { name := "", client := 1 })
       = (.render "project_detail.html"
            (.projectDetailCtx { id := 1, name := "Website", client := 1, author := some 1 } (some { name := "", client := 1 }) true), demoDb)
     ∧ ProjectUpdateView.handle demoDb (some 1) 1 (.post { name := "", client := 1 })
       = (.render "project_detail.html"
            (.projectDetailCtx { id := 1, name := "Website", client := 1, author := some 1 } (some { name := "", client := 1 }) true), demoDb))
:= ⟨by decide, by decide, by decide,
    c6_invalid_post_rerenders_form demoDb 1 1
      { id := 1, name := "Initech", author := some 1 }
      { id := 1, name := "Website", client := 1, author := some 1 }
      { name := "" }
      { start := "", stop := "", project := 1, description := "" }
      { name := "", client := 1 }
      (by decide) (by decide) (by decide) (by decide) (by decide) (by decide) (by decide)⟩

/-- C7 counterexample: the claim says a deprecated function-based view
inserts the same rows as its class-based counterpart from the same valid
input.  Submitting name "Acme" to `clients` and to `ClientCreateView` (as
user 1) from the same database yields different rows: the function-based
view stores author NULL, the class-based view stores author 1. -/
theorem c7_counterexample_created_rows_differ :
  (clients demoDb (.post { name := "Acme" })).2.clients
      = [{ id := 1, name := "Initech", author := some 1 },
         { id := 2, name := "Acme", author := none }]
  ∧ (ClientCreateView.handle demoDb (some 1) (.post { name := "Acme" })).2.clients
      = [{ id := 1, name := "Initech", author := some 1 },
         { id := 2, name := "Acme", author := some 1 }]
  ∧ (clients demoDb (.post { name := "Acme" })).2
      ≠ (ClientCreateView.handle demoDb (some 1) (.post { name := "Acme" })).2
:= ⟨rfl, rfl, by decide⟩

/-- C7 amended: each deprecated function-based view matches its class-based
counterpart's responses — same rendered pages on GET, same redirect target
on a valid create POST, and identical behaviour on updates once both
resolve the same target row — except that it applies no ownership
filtering and no authentication check, and additionally the rows it
creates carry author NULL where the class-based views store the requesting
user. -/
theorem c7_amended_deprecated_views_equivalence (db : Db) (u : Nat)
    (f : ClientFormData) (fe : EntryFormData) (fp : ProjectFormData)
    (pk : Nat) (c : Client) (p : Project)
    (hf : clientFormIsValid f = true)
    (hfe : entryFormIsValid db fe = true)
    (hfp : projectFormIsValid db fp = true)
    (hcd : db.clients.find? (fun x => x.id == pk) = some c)
    (hcu : (ClientUpdateView.get_queryset db u).find? (fun x => x.id == pk) = some c)
    (hpd : db.projects.find? (fun x => x.id == pk) = some p)
    (hpu : (ProjectUpdateView.get_queryset db u).find? (fun x => x.id == pk) = some p) :
  clients db .get = ClientCreateView.handle db (some u) .get
  ∧ entries db .get = EntryCreateView.handle db (some u) .get
  ∧ projects db .get = ProjectCreateView.handle db (some u) .get
  ∧ (clients db (.post f)).1 = (ClientCreateView.handle db (some u) (.post f)).1
  ∧ (clients db (.post f)).2.clients
      = db.clients ++ [{ id := db.nextClientId, name := f.name, author := none }]
  ∧ (ClientCreateView.handle db (some u) (.post f)).2.clients
      = db.clients ++ [{ id := db.nextClientId, name := f.name, author := some u }]
  ∧ (entries db (.post fe)).1 = (EntryCreateView.handle db (some u) (.post fe)).1
  ∧ (entries db (.post fe)).2.entries
      = db.entries ++ [{ id := db.nextEntryId, start := fe.start, stop := fe.stop,
                         project := fe.project, description := fe.description, author := none }]
  ∧ (EntryCreateView.handle db (some u) (.post fe)).2.entries
      = db.entries ++ [{ id := db.nextEntryId, start := fe.start, stop := fe.stop,
                         project := fe.project, description := fe.description, author := some u }]
  ∧ (projects db (.post fp)).1 = (ProjectCreateView.handle db (some u) (.post fp)).1
  ∧ (projects db (.post fp)).2.projects
      = db.projects ++ [{ id := db.nextProjectId, name := fp.name, client := fp.client, author := none }]
  ∧ (ProjectCreateView.handle db (some u) (.post fp)).2.projects
      = db.projects ++ [{ id := db.nextProjectId, name := fp.name, client := fp.client, author := some u }]
  ∧ client_detail db pk .get = ClientUpdateView.handle db (some u) pk .get
  ∧ client_detail db pk (.post f) = ClientUpdateView.handle db (some u) pk (.post f)
  ∧ project_detail db pk .get = ProjectUpdateView.handle db (some u) pk .get
  ∧ project_detail db pk (.post fp) = ProjectUpdateView.handle db (some u) pk (.post fp)
:= by
  refine ⟨rfl, rfl, rfl, ?_, ?_, ?_, ?_, ?_, ?_, ?_, ?_, ?_, ?_, ?_, ?_, ?_⟩ <;>
    simp [clients, ClientCreateView.handle, entries, EntryCreateView.handle,
          projects, ProjectCreateView.handle, client_detail, ClientUpdateView.handle,
          project_detail, ProjectUpdateView.handle, hf, hfe, hfp, hcd, hcu, hpd, hpu]

/-- Witness for the amended C7 at `demoDb`, user 1, concrete valid forms
and primary key 1 (resolving to user 1's own client and project rows). -/
theorem c7_amended_deprecated_views_equivalence_witness :
  clientFormIsValid { name := "Acme" } = true
  ∧ (ClientUpdateView.get_queryset demoDb 1).find? (fun x => x.id == 1)
      = some { id := 1, name := "Initech", author := some 1 }
  ∧ (clients demoDb .get = ClientCreateView.handle demoDb (some 1) .get
     ∧ entries demoDb .get = EntryCreateView.handle demoDb (some 1) .get
     ∧ projects demoDb .get = ProjectCreateView.handle demoDb (some 1) .get
     ∧ (clients demoDb (.post { name := "Acme" })).1
         = (ClientCreateView.handle demoDb (some 1) (.post { name := "Acme" })).1
     ∧ (clients demoDb (.post { name := "Acme" })).2.clients
         = demoDb.clients ++ [{ id := demoDb.nextClientId, name := "Acme", author := none }]
     ∧ (ClientCreateView.handle demoDb (some 1) (.post { name := "Acme" })).2.clients
         = demoDb.clients ++ [{ id := demoDb.nextClientId, name := "Acme", author := some 1 }]
     ∧ (entries demoDb (.post { start := "09:00", stop := "10:00", project := 1, description := "work" })).1
         = (EntryCreateView.handle demoDb (some 1) (.post { start := "09:00", stop := "10:00", project := 1, description := "work" })).1
     ∧ (entries demoDb (.post { start := "09:00", stop := "10:00", project := 1, description := "work" })).2.entries
         = demoDb.entries ++ [{ id := demoDb.nextEntryId, start := "09:00", stop := "10:00",
                                project := 1, description := "work", author := none }]
     ∧ (EntryCreateView.handle demoDb (some 1) (.post { start := "09:00", stop := "10:00", project := 1, description := "work" })).2.entries
         = demoDb.entries ++ [{ id := demoDb.nextEntryId, start := "09:00", stop := "10:00",
                                project := 1, description := "work", author := some 1 }]
     ∧ (projects demoDb (.post { name := "App", client := 1 })).1
         = (ProjectCreateView.handle demoDb (some 1) (.post { name := "App", client := 1 })).1
     ∧ (projects demoDb (.post { name := "App", client := 1 })).2.projects
         = demoDb.projects ++ [{ id := demoDb.nextProjectId, name := "App", client := 1, author := none }]
     ∧ (ProjectCreateView.handle demoDb (some 1) (.post { name := "App", client := 1 })).2.projects
         = demoDb.projects ++ [{ id := demoDb.nextProjectId, name := "App", client := 1, author := some 1 }]
     ∧ client_detail demoDb 1 .get = ClientUpdateView.handle demoDb (some 1) 1 .get
     ∧ client_detail demoDb 1 (.post { name := "Acme" })
         = ClientUpdateView.handle demoDb (some 1) 1 (.post { name := "Acme" })
     ∧ project_detail demoDb 1 .get = ProjectUpdateView.handle demoDb (some 1) 1 .get
     ∧ project_detail demoDb 1 (.post { name := "App", client := 1 })
         = ProjectUpdateView.handle demoDb (some 1) 1 (.post { name := "App", client := 1 }))
:= ⟨by decide, by decide,
    c7_amended_deprecated_views_equivalence demoDb 1
      { name := "Acme" }
      { start := "09:00", stop := "10:00", project := 1, description := "work" }
      { name := "App", client := 1 }
      1
      { id := 1, name := "Initech", author := some 1 }
      { id := 1, name := "Website", client := 1, author := some 1 }
      (by decide) (by decide) (by decide) (by decide) (by decide) (by decide) (by decide)⟩

/-- C10: each row created through a deprecated function-based view is
stored with author NULL, so the author-filtered querysets of any user u2
are the same before and after the insertion — the new row is invisible to
every ownership-filtered update or create queryset. -/
theorem c10_deprecated_rows_author_null (db : Db) (u2 : Nat)
    (f : ClientFormData) (fe : EntryFormData) (fp : ProjectFormData)
    (hf : clientFormIsValid f = true)
    (hfe : entryFormIsValid db fe = true)
    (hfp : projectFormIsValid db fp = true) :
  (clients db (.post f)).2.clients
      = db.clients ++ [{ id := db.nextClientId, name := f.name, author := none }]
  ∧ ClientUpdateView.get_queryset (clients db (.post f)).2 u2 = ClientUpdateView.get_queryset db u2
  ∧ (entries db (.post fe)).2.entries
      = db.entries ++ [{ id := db.nextEntryId, start := fe.start, stop := fe.stop,
                         project := fe.project, description := fe.description, author := none }]
  ∧ EntryCreateView.get_queryset (entries db (.post fe)).2 u2 = EntryCreateView.get_queryset db u2
  ∧ (projects db (.post fp)).2.projects
      = db.projects ++ [{ id := db.nextProjectId, name := fp.name, client := fp.client, author := none }]
  ∧ ProjectUpdateView.get_queryset (projects db (.post fp)).2 u2 = ProjectUpdateView.get_queryset db u2
  ∧ ProjectCreateView.get_queryset (projects db (.post fp)).2 u2 = ProjectCreateView.get_queryset db u2
:= by
  refine ⟨?_, ?_, ?_, ?_, ?_, ?_, ?_⟩ <;>
    simp [clients, entries, projects, ClientUpdateView.get_queryset,
          EntryCreateView.get_queryset, ProjectUpdateView.get_queryset,
          ProjectCreateView.get_queryset, List.filter_append, hf, hfe, hfp]

/-- Witness for C10 at `demoDb3` (one client and one project, both authored
by user 2), valid forms, and requesting user 2 for the queryset
comparisons. -/
theorem c10_deprecated_rows_author_null_witness :
  clientFormIsValid { name := "Acme" } = true
  ∧ ((clients demoDb3 (.post { name := "Acme" })).2.clients
       = demoDb3.clients ++ [{ id := demoDb3.nextClientId, name := "Acme", author := none }]
     ∧ ClientUpdateView.get_queryset (clients demoDb3 (.post { name := "Acme" })).2 2
       = ClientUpdateView.get_queryset demoDb3 2
     ∧ (entries demoDb3 (.post { start := "09:00", stop := "10:00", project := 1, description := "work" })).2.entries
       = demoDb3.entries ++ [{ id := demoDb3.nextEntryId, start := "09:00", stop := "10:00",
                               project := 1, description := "work", author := none }]
     ∧ EntryCreateView.get_queryset (entries demoDb3 (.post { start := "09:00", stop := "10:00", project := 1, description := "work" })).2 2
       = EntryCreateView.get_queryset demoDb3 2
     ∧ (projects demoDb3 (.post { name := "App", client := 1 })).2.projects
       = demoDb3.projects ++ [{ id := demoDb3.nextProjectId, name := "App", client := 1, author := none }]
     ∧ ProjectUpdateView.get_queryset (projects demoDb3 (.post { name := "App", client := 1 })).2 2
       = ProjectUpdateView.get_queryset demoDb3 2
     ∧ ProjectCreateView.get_queryset (projects demoDb3 (.post { name := "App", client := 1 })).2 2
       = ProjectCreateView.get_queryset demoDb3 2)
:= ⟨by decide,
    c10_deprecated_rows_author_null demoDb3 2
      { name := "Acme" }
      { start := "09:00", stop := "10:00", project := 1, description := "work" }
      { name := "App", client := 1 }
      (by decide) (by decide) (by decide)⟩
